import Mathlib

/-!
Shallow embedding of the numerical core of the two Coriolis animation
scripts (`coriolis_earth_deflection.py` and `coriolis_merry_go_round.py`).
Floating-point arithmetic is modelled over the real numbers; the Python
`ZeroDivisionError` raised when `n_steps = 0` is modelled by an `Option`
result.
-/

namespace EarthDeflection

/-- `np.radians`: degrees to radians, `deg * (pi / 180)`. -/
noncomputable def radians (deg : ℝ) : ℝ :=
  deg * (Real.pi / 180)

/-- `geo_to_xyz(lat_deg, lon_deg, r)` from `coriolis_earth_deflection.py`:
latitude/longitude in degrees to Cartesian coordinates with the polar
axis on z. -/
noncomputable def geo_to_xyz (lat_deg lon_deg r : ℝ) : ℝ × ℝ × ℝ :=
  let lat := radians lat_deg
  let lon := radians lon_deg
  (r * Real.cos lat * Real.cos lon,
   r * Real.cos lat * Real.sin lon,
   r * Real.sin lat)

/-- The 4-component state `[lat, lon, u, v]` used by
`compute_coriolis_trajectory`. -/
structure SphereState where
  lat : ℝ
  lon : ℝ
  u : ℝ
  v : ℝ

noncomputable instance : Add SphereState :=
  ⟨fun a b => ⟨a.lat + b.lat, a.lon + b.lon, a.u + b.u, a.v + b.v⟩⟩

noncomputable instance : SMul ℝ SphereState :=
  ⟨fun c a => ⟨c * a.lat, c * a.lon, c * a.u, c * a.v⟩⟩

theorem SphereState.add_def (a b : SphereState) :
    a + b = ⟨a.lat + b.lat, a.lon + b.lon, a.u + b.u, a.v + b.v⟩ := rfl

theorem SphereState.smul_def (c : ℝ) (a : SphereState) :
    c • a = ⟨c * a.lat, c * a.lon, c * a.u, c * a.v⟩ := rfl

/-- The clamped divisor `cos_lat = max(np.cos(lat), 1e-6)` computed inside
`derivatives`. -/
noncomputable def cos_lat (lat : ℝ) : ℝ :=
  max (Real.cos lat) 1e-6

/-- The nested `derivatives(s)` function of `compute_coriolis_trajectory`:
`f = 2*omega*sin(lat)`, and the return value
`[v, u / cos_lat, f * v, -f * u]`. -/
noncomputable def derivatives (omega : ℝ) (s : SphereState) : SphereState :=
  let f := 2 * omega * Real.sin s.lat
  ⟨s.v, s.u / cos_lat s.lat, f * s.v, -f * s.u⟩

/-- One iteration of the RK4 loop body in `compute_coriolis_trajectory`. -/
noncomputable def rk4Step (omega dt : ℝ) (state : SphereState) : SphereState :=
  let k1 := derivatives omega state
  let k2 := derivatives omega (state + (0.5 * dt) • k1)
  let k3 := derivatives omega (state + (0.5 * dt) • k2)
  let k4 := derivatives omega (state + dt • k3)
  state + (dt / 6) • (k1 + (2 : ℝ) • k2 + (2 : ℝ) • k3 + k4)

/-- The trajectory list built by the loop: the current state followed by
the states produced by the remaining iterations. -/
noncomputable def rk4Traj (omega dt : ℝ) (state : SphereState) : ℕ → List SphereState
  | 0 => [state]
  | n + 1 => state :: rk4Traj omega dt (rk4Step omega dt state) n

/-- The initial state `np.array([lat0, lon0, 0.0, v0])`. -/
noncomputable def initState (lat0_deg lon0_deg v0 : ℝ) : SphereState :=
  ⟨radians lat0_deg, radians lon0_deg, 0, v0⟩

/-- `compute_coriolis_trajectory` from `coriolis_earth_deflection.py`.
`n_steps` is a Python `int`, modelled as `ℤ`; the `ZeroDivisionError`
raised by `dt = sim_time / n_steps` when `n_steps = 0` is modelled as
`none`.  `range(n_steps)` iterates `n_steps.toNat` times (zero times for
negative `n_steps`). -/
noncomputable def compute_coriolis_trajectory
    (lat0_deg lon0_deg v0 omega sim_time : ℝ) (n_steps : ℤ) :
    Option (List SphereState) :=
  if n_steps = 0 then none
  else
    let dt := sim_time / (n_steps : ℝ)
    some (rk4Traj omega dt (initState lat0_deg lon0_deg v0) n_steps.toNat)

end EarthDeflection

namespace MerryGoRound

/-- Module-level constants of `coriolis_merry_go_round.py`. -/
noncomputable def PERSON_RADIUS : ℝ := 1.3

noncomputable def OMEGA : ℝ := Real.pi / 9

noncomputable def FLIGHT_TIME : ℝ := 1.0

noncomputable def THROW_SPEED_SCALE : ℝ := 3.0

noncomputable def ANGLE_A : ℝ := 0

noncomputable def ANGLE_B : ℝ := Real.pi / 2

/-- A 3-component numpy vector. -/
abbrev V3 := ℝ × ℝ × ℝ

/-- Componentwise `a + b` on 3-vectors. -/
def vadd (a b : V3) : V3 :=
  (a.1 + b.1, a.2.1 + b.2.1, a.2.2 + b.2.2)

/-- Componentwise `b - a` flipped: `vsub b a = b - a`. -/
def vsub (b a : V3) : V3 :=
  (b.1 - a.1, b.2.1 - a.2.1, b.2.2 - a.2.2)

/-- Componentwise scalar multiple `c * a`. -/
def vsmul (c : ℝ) (a : V3) : V3 :=
  (c * a.1, c * a.2.1, c * a.2.2)

/-- Componentwise division by a scalar `a / c`. -/
noncomputable def vdiv (a : V3) (c : ℝ) : V3 :=
  (a.1 / c, a.2.1 / c, a.2.2 / c)

/-- `polar(angle, r)`: polar coordinates to a 3D vector with zero z. -/
noncomputable def polar (angle : ℝ) (r : ℝ) : V3 :=
  (r * Real.cos angle, r * Real.sin angle, 0)

/-- `rot2d(v, theta)`: rotates the x,y components and writes `0` as the
third component, exactly as the source's
`np.array([c*v[0] - s*v[1], s*v[0] + c*v[1], 0])`. -/
noncomputable def rot2d (v : V3) (theta : ℝ) : V3 :=
  let c := Real.cos theta
  let s := Real.sin theta
  (c * v.1 - s * v.2.1, s * v.1 + c * v.2.1, 0)

/-- `compute_v_inertial(pa, pb)`:
`v_aim = THROW_SPEED_SCALE * (pb - pa) / FLIGHT_TIME`, plus the platform
tangential velocity `(-OMEGA * pa[1], OMEGA * pa[0], 0)`. -/
noncomputable def compute_v_inertial (pa pb : V3) : V3 :=
  let v_aim := vdiv (vsmul THROW_SPEED_SCALE (vsub pb pa)) FLIGHT_TIME
  let omega_cross_r : V3 := (-(OMEGA * pa.2.1), OMEGA * pa.1, 0)
  vadd v_aim omega_cross_r

/-- `POS_A = polar(ANGLE_A)`. -/
noncomputable def POS_A : V3 := polar ANGLE_A PERSON_RADIUS

/-- `POS_B = polar(ANGLE_B)`. -/
noncomputable def POS_B : V3 := polar ANGLE_B PERSON_RADIUS

/-- `V_INERTIAL = compute_v_inertial(POS_A, POS_B)`. -/
noncomputable def V_INERTIAL : V3 := compute_v_inertial POS_A POS_B

/-- `np.clip(t, lo, hi)`. -/
noncomputable def clip (t lo hi : ℝ) : ℝ :=
  min (max t lo) hi

/-- `ball_inertial(t, pa, vi) = pa + vi * np.clip(t, 0.0, FLIGHT_TIME)`. -/
noncomputable def ball_inertial (t : ℝ) (pa vi : V3) : V3 :=
  vadd pa (vsmul (clip t 0 FLIGHT_TIME) vi)

/-- `ball_rotating(t, pa, vi) = rot2d(ball_inertial(t, pa, vi), -OMEGA*t)`. -/
noncomputable def ball_rotating (t : ℝ) (pa vi : V3) : V3 :=
  rot2d (ball_inertial t pa vi) (-(OMEGA * t))

end MerryGoRound

namespace EarthDeflection

theorem rk4Traj_length (omega dt : ℝ) (n : ℕ) :
    ∀ s, (rk4Traj omega dt s n).length = n + 1 := by
  induction n with
  | zero => intro s; rfl
  | succ m ih => intro s; simp [rk4Traj, ih]

theorem rk4Traj_head (omega dt : ℝ) (n : ℕ) (s : SphereState) :
    (rk4Traj omega dt s n)[0]? = some s := by
  cases n <;> simp [rk4Traj]

theorem rk4Traj_step (omega dt : ℝ) (n : ℕ) :
    ∀ (s : SphereState) (i : ℕ), i < n →
      (rk4Traj omega dt s n)[i + 1]? =
        ((rk4Traj omega dt s n)[i]?).map (rk4Step omega dt) := by
  induction n with
  | zero => intro s i h; exact absurd h (Nat.not_lt_zero i)
  | succ m ih =>
    intro s i hi
    cases i with
    | zero => simp [rk4Traj, rk4Traj_head]
    | succ j =>
      have hj : j < m := Nat.lt_of_succ_lt_succ hi
      simp only [rk4Traj, List.getElem?_cons_succ]
      exact ih (rk4Step omega dt s) j hj

/-- C1: the sphere-variant derivative function returns exactly
`(v, u / max(cos lat, 1e-6), f*v, -(f*u))` with `f = 2*omega*sin(lat)`. -/
theorem claim_C1_derivatives_formula (omega : ℝ) (s : SphereState) :
    derivatives omega s =
      ⟨s.v, s.u / max (Real.cos s.lat) 1e-6,
       2 * omega * Real.sin s.lat * s.v,
       -(2 * omega * Real.sin s.lat * s.u)⟩ := by
  simp [derivatives, cos_lat, SphereState.mk.injEq, neg_mul]

/-- C7: the divisor `cos_lat` used by `derivatives` is clamped to at
least `1e-6`, hence strictly positive for every latitude (also at and
beyond the poles, where `cos` is nonpositive), and the longitude
derivative is the division by this clamped value. -/
theorem claim_C7_no_division_by_zero (omega : ℝ) (s : SphereState) :
    0 < cos_lat s.lat ∧ (1e-6 : ℝ) ≤ cos_lat s.lat ∧
      (derivatives omega s).lon = s.u / cos_lat s.lat := by
  refine ⟨lt_max_of_lt_right (by norm_num), le_max_right _ _, rfl⟩

/-- C9: `geo_to_xyz` converts degrees to radians and returns exactly
`(r*cos(lat)*cos(lon), r*cos(lat)*sin(lon), r*sin(lat))`, with the polar
axis on z, for arbitrary real inputs. -/
theorem claim_C9_geo_to_xyz_formula (lat_deg lon_deg r : ℝ) :
    geo_to_xyz lat_deg lon_deg r =
      (r * Real.cos (lat_deg * Real.pi / 180) * Real.cos (lon_deg * Real.pi / 180),
       r * Real.cos (lat_deg * Real.pi / 180) * Real.sin (lon_deg * Real.pi / 180),
       r * Real.sin (lat_deg * Real.pi / 180)) := by
  simp [geo_to_xyz, radians, mul_div_assoc]

/-- C10: for every call of the sphere integrator that returns a
trajectory, the first sample is `(radians lat0, radians lon0, 0, v0)`:
the initial eastward angular velocity is fixed at `0` and the single
scalar `v0` is the northward component. -/
theorem claim_C10_initial_sample (lat0_deg lon0_deg v0 omega sim_time : ℝ)
    (n_steps : ℤ) (hn : n_steps ≠ 0) :
    Option.map List.head?
        (compute_coriolis_trajectory lat0_deg lon0_deg v0 omega sim_time n_steps) =
      some (some ⟨radians lat0_deg, radians lon0_deg, 0, v0⟩) := by
  unfold compute_coriolis_trajectory
  rw [if_neg hn]
  cases h : n_steps.toNat with
  | zero => simp [rk4Traj, initState]
  | succ m => simp [rk4Traj, initState]

theorem claim_C10_initial_sample_witness :
    Option.map List.head? (compute_coriolis_trajectory 0 0 0 0 1 1) =
      some (some ⟨radians 0, radians 0, 0, 0⟩) :=
  claim_C10_initial_sample 0 0 0 0 1 1 (by decide)

end EarthDeflection

namespace EarthDeflection

/-- C2: for `n_steps >= 1` and positive `sim_time` the integrator
returns a history of exactly `n_steps + 1` samples whose first sample is
the initial state, each later sample obtained from its predecessor by
one classic RK4 step of size `dt = sim_time / n_steps`: the derivative
is evaluated at the current state, at two `dt/2` trial midpoint states
and at one `dt` trial endpoint state, and the update is
`(dt/6) * (k1 + 2*k2 + 2*k3 + k4)`. -/
theorem claim_C2_rk4_trajectory (lat0_deg lon0_deg v0 omega sim_time : ℝ)
    (n_steps : ℤ) (hT : 0 < sim_time) (hn : 1 ≤ n_steps) :
    ∃ tr, compute_coriolis_trajectory lat0_deg lon0_deg v0 omega sim_time n_steps
        = some tr ∧
      tr.length = n_steps.toNat + 1 ∧
      tr[0]? = some (initState lat0_deg lon0_deg v0) ∧
      (∀ i : ℕ, i < n_steps.toNat →
        tr[i + 1]? = (tr[i]?).map (rk4Step omega (sim_time / (n_steps : ℝ)))) ∧
      (∀ s, rk4Step omega (sim_time / (n_steps : ℝ)) s =
        let dt := sim_time / (n_steps : ℝ)
        let k1 := derivatives omega s
        let k2 := derivatives omega (s + (dt / 2) • k1)
        let k3 := derivatives omega (s + (dt / 2) • k2)
        let k4 := derivatives omega (s + dt • k3)
        s + (dt / 6) • (k1 + (2 : ℝ) • k2 + (2 : ℝ) • k3 + k4)) := by
  have hne : n_steps ≠ 0 := by omega
  refine ⟨rk4Traj omega (sim_time / (n_steps : ℝ))
      (initState lat0_deg lon0_deg v0) n_steps.toNat, ?_, ?_, ?_, ?_, ?_⟩
  · unfold compute_coriolis_trajectory
    rw [if_neg hne]
  · exact rk4Traj_length _ _ _ _
  · exact rk4Traj_head _ _ _ _
  · intro i hi
    exact rk4Traj_step _ _ _ _ i hi
  · intro s
    have h05 : (0.5 : ℝ) * (sim_time / (n_steps : ℝ))
        = sim_time / (n_steps : ℝ) / 2 := by ring
    simp only [rk4Step, h05]

theorem claim_C2_rk4_trajectory_witness :
    ∃ tr, compute_coriolis_trajectory 0 0 0 0 1 1 = some tr ∧
      tr.length = (1 : ℤ).toNat + 1 ∧
      tr[0]? = some (initState 0 0 0) ∧
      (∀ i : ℕ, i < (1 : ℤ).toNat →
        tr[i + 1]? = (tr[i]?).map (rk4Step 0 (1 / ((1 : ℤ) : ℝ)))) ∧
      (∀ s, rk4Step 0 (1 / ((1 : ℤ) : ℝ)) s =
        let dt := 1 / ((1 : ℤ) : ℝ)
        let k1 := derivatives 0 s
        let k2 := derivatives 0 (s + (dt / 2) • k1)
        let k3 := derivatives 0 (s + (dt / 2) • k2)
        let k4 := derivatives 0 (s + dt • k3)
        s + (dt / 6) • (k1 + (2 : ℝ) • k2 + (2 : ℝ) • k3 + k4)) :=
  claim_C2_rk4_trajectory 0 0 0 0 1 1 (by norm_num) (by decide)

/-- C8 counterexample: with `n_steps = -1` (a non-positive step count)
the integrator does not fail; it silently returns a trajectory. -/
theorem claim_C8_counterexample :
    (compute_coriolis_trajectory 0 0 0 0 1 (-1)).isSome = true := by
  norm_num [compute_coriolis_trajectory]

/-- C8 amended: only `n_steps = 0` produces the division-by-zero domain
error; for every negative `n_steps` the integrator silently returns the
single-sample history containing only the initial state. -/
theorem claim_C8_amended (lat0_deg lon0_deg v0 omega sim_time : ℝ)
    (n_steps : ℤ) (hn : n_steps ≤ 0) :
    compute_coriolis_trajectory lat0_deg lon0_deg v0 omega sim_time n_steps =
      if n_steps = 0 then none
      else some [initState lat0_deg lon0_deg v0] := by
  by_cases h : n_steps = 0
  · simp [compute_coriolis_trajectory, h]
  · have ht : n_steps.toNat = 0 := Int.toNat_of_nonpos hn
    simp [compute_coriolis_trajectory, h, ht, rk4Traj]

theorem claim_C8_amended_witness :
    compute_coriolis_trajectory 0 0 0 0 1 (-1) =
      if (-1 : ℤ) = 0 then none else some [initState 0 0 0] :=
  claim_C8_amended 0 0 0 0 1 (-1) (by decide)

end EarthDeflection

namespace MerryGoRound

theorem clip_zero_left : clip 0 0 FLIGHT_TIME = 0 := by
  norm_num [clip, FLIGHT_TIME]

theorem ball_inertial_zero (pa vi : V3) : ball_inertial 0 pa vi = pa := by
  simp [ball_inertial, clip_zero_left, vadd, vsmul]

/-- C3: the inertial launch velocity is the aim velocity
`THROW_SPEED_SCALE * (pb - pa) / FLIGHT_TIME` plus the platform's local
tangential velocity `(-OMEGA*pa_y, OMEGA*pa_x, 0)` at the source. -/
theorem claim_C3_v_inertial (pa pb : V3) :
    compute_v_inertial pa pb =
      vadd (vsmul (THROW_SPEED_SCALE / FLIGHT_TIME) (vsub pb pa))
        (-(OMEGA * pa.2.1), OMEGA * pa.1, 0) := by
  obtain ⟨ax, ay, az⟩ := pa
  obtain ⟨bx, b2, bz⟩ := pb
  simp only [compute_v_inertial, vadd, vsub, vsmul, vdiv, Prod.mk.injEq]
  exact ⟨by ring, by ring, by ring⟩

/-- C4: the disk-case trajectories are the stated closed forms —
`ball_inertial t = POS_A + clip(t,0,FLIGHT_TIME) * V_INERTIAL`,
`ball_rotating t = rot2d(ball_inertial t, -OMEGA*t)` — and at `t = 0`
both yield exactly the initial position `POS_A`. -/
theorem claim_C4_disk_closed_form :
    (∀ t, ball_inertial t POS_A V_INERTIAL =
        vadd POS_A (vsmul (clip t 0 FLIGHT_TIME) V_INERTIAL)) ∧
    (∀ t, ball_rotating t POS_A V_INERTIAL =
        rot2d (ball_inertial t POS_A V_INERTIAL) (-(OMEGA * t))) ∧
    ball_inertial 0 POS_A V_INERTIAL = POS_A ∧
    ball_rotating 0 POS_A V_INERTIAL = POS_A := by
  refine ⟨fun t => rfl, fun t => rfl, ball_inertial_zero _ _, ?_⟩
  show rot2d (ball_inertial 0 POS_A V_INERTIAL) (-(OMEGA * 0)) = POS_A
  rw [ball_inertial_zero]
  simp [rot2d, POS_A, polar, ANGLE_A]

/-- C5 counterexample: `rot2d` does not pass the third component
through — on input `(0,0,1)` with angle `0` the output's third
component is `0`, not `1`. -/
theorem claim_C5_counterexample :
    (rot2d ((0 : ℝ), (0 : ℝ), (1 : ℝ)) 0).2.2 ≠
      ((0 : ℝ), (0 : ℝ), (1 : ℝ)).2.2 := by
  simp [rot2d]

/-- C5 amended: `rot2d` applies the standard planar rotation matrix to
the x and y components and writes `0` as the third component; hence for
the planar vectors actually used (third component `0`) the third
component is passed through unchanged. -/
theorem claim_C5_amended (v : V3) (theta : ℝ) (h : v.2.2 = 0) :
    rot2d v theta =
      (Real.cos theta * v.1 - Real.sin theta * v.2.1,
       Real.sin theta * v.1 + Real.cos theta * v.2.1,
       v.2.2) := by
  simp [rot2d, h]

theorem claim_C5_amended_witness :
    rot2d ((3 : ℝ), (4 : ℝ), (0 : ℝ)) 0 =
      (Real.cos 0 * 3 - Real.sin 0 * 4,
       Real.sin 0 * 3 + Real.cos 0 * 4,
       (0 : ℝ)) :=
  claim_C5_amended (3, 4, 0) 0 rfl

/-- C6 counterexample: the round trip
`rot2d (rot2d v theta) (-theta)` is not the identity on every
3-vector — on `(0,0,1)` with `theta = 0` it returns `(0,0,0)`. -/
theorem claim_C6_counterexample :
    rot2d (rot2d ((0 : ℝ), (0 : ℝ), (1 : ℝ)) 0) (-0) ≠
      ((0 : ℝ), (0 : ℝ), (1 : ℝ)) := by
  intro h
  have h3 := congrArg (fun p : V3 => p.2.2) h
  simp [rot2d] at h3

/-- C6 amended: for every vector whose third component is `0` (the
planar vectors the script uses) and every angle,
`rot2d (rot2d v theta) (-theta) = v` exactly. -/
theorem claim_C6_amended (v : V3) (theta : ℝ) (h : v.2.2 = 0) :
    rot2d (rot2d v theta) (-theta) = v := by
  obtain ⟨x, y, z⟩ := v
  have hz : z = 0 := h
  subst hz
  simp only [rot2d, Real.cos_neg, Real.sin_neg, Prod.mk.injEq]
  refine ⟨?_, ?_, trivial⟩
  · linear_combination x * Real.sin_sq_add_cos_sq theta
  · linear_combination y * Real.sin_sq_add_cos_sq theta

theorem claim_C6_amended_witness :
    rot2d (rot2d ((1 : ℝ), (0 : ℝ), (0 : ℝ)) Real.pi) (-Real.pi) =
      ((1 : ℝ), (0 : ℝ), (0 : ℝ)) :=
  claim_C6_amended (1, 0, 0) Real.pi rfl

end MerryGoRound
